import Mathlib

/-!
Verification development for the Europeana search client
(`src/europeana/client.py`).  The definitions below are a shallow
embedding of the query-string compiler (`build_query_string`), the
fluent `QueryBuilder`, the request-parameter construction performed by
`EuropeanaClient.search_raw`, and the cursor-driven pagination loop of
`EuropeanaClient.search_all_raw`.

Modelling conventions:
* Python `dict[str, str | Enum]` filter maps become ordered association
  lists with last-write-wins insertion (`dictUpsert`), matching Python
  dict insertion-order semantics.
* Python ints are `Int`; `Optional[int]` is `Option Int`.  Python
  truthiness tests (`if text:`, `if max_records:`, `not next_cursor`)
  are translated explicitly: an empty string and the integer 0 are
  falsy.
* The HTTP layer is an injected transport
  `RequestParams → Except ε (SearchResults α)`; `raise_for_status`
  raising on a non-success response is the `.error` case.
* The generator `search_all_raw` becomes a fuel-indexed loop `runAux`;
  `none` means the loop has not terminated within the given fuel.
* The mutable builder aliased by the generator is modelled by a
  schedule `builderAt : Nat → QueryBuilder` giving the builder's state
  at the moment page `n`'s fetch is prepared; the source's
  `copy.deepcopy(query)` justifies treating each issued request as a
  pure value of that snapshot (`setPageRows`).
* Fields of the builder that no examined behaviour reads (the
  geographic float triple rendered into the `qf` parameter) are
  omitted; the `_geographic` slot is not consulted by any property
  proved here.
-/

/-- Values stored in the filter map: plain strings, or enum members
carrying an underlying string (Python `hasattr(value, "value")`). -/
inductive QueryValue where
  | str (s : String)
  | enum (underlying : String)
deriving DecidableEq

/-- Python `value.value if hasattr(value, "value") else value`, followed by
`str(value)`. -/
def strOfValue : QueryValue → String
  | .str s => s
  | .enum u => u

/-- Python `" " in value`. -/
def strContainsSpace (s : String) : Bool :=
  s.data.contains ' '

/-- Python `value.startswith('"')`. -/
def strStartsWithQuote (s : String) : Bool :=
  match s.data with
  | [] => false
  | c :: _ => c == '"'

/-- Python `value.endswith('"')`. -/
def strEndsWithQuote (s : String) : Bool :=
  s.data.getLast? == some '"'

/-- Python `value.startswith('"') and value.endswith('"')`. -/
def isWrappedInQuotes (s : String) : Bool :=
  strStartsWithQuote s && strEndsWithQuote s

/-- One filter term as emitted by the loop body of `build_query_string`
(client.py lines 254-265): resolve enum values, stringify, quote a
value containing a space unless already wrapped in double quotes, and
emit `field:value`. -/
def filterTerm (field : String) (v : QueryValue) : String :=
  let value := strOfValue v
  let value :=
    if strContainsSpace value && !(isWrappedInQuotes value) then
      "\"" ++ value ++ "\""
    else value
  field ++ ":" ++ value

/-- `build_query_string` (client.py lines 232-268): free text first when
truthy, then one term per filter in insertion order, joined by
`" AND "`; the empty part list yields the empty string. -/
def build_query_string (text : Option String)
    (filters : List (String × QueryValue)) : String :=
  let query_parts : List String :=
    (match text with
     | some t => if t = "" then [] else [t]
     | none => []) ++ filters.map (fun p => filterTerm p.1 p.2)
  if query_parts = [] then "" else String.intercalate " AND " query_parts

-- Module-level constants (client.py lines 228-229).

def DEFAULT_ROWS : Int := 100

def MAX_ROWS : Int := 100

/-- `FACETABLE_FIELDS` (client.py lines 210-224), with each `SearchField`
member resolved to its underlying string. -/
def FACETABLE_FIELDS : List String :=
  [ "proxy_dc_creator"
  , "proxy_dc_contributor"
  , "proxy_dc_subject"
  , "proxy_dc_type"
  , "proxy_dc_rights"
  , "proxy_dcterms_medium"
  , "proxy_dcterms_spatial"
  , "TYPE"
  , "PROVIDER"
  , "DATA_PROVIDER"
  , "RIGHTS"
  , "COUNTRY"
  , "LANGUAGE" ]

/-- Ordered last-write-wins insertion, matching Python dict assignment
`self._filters[field_name] = value`: an existing key keeps its position
and gets the new value, a new key is appended. -/
def dictUpsert (k : String) (v : QueryValue) :
    List (String × QueryValue) → List (String × QueryValue)
  | [] => [(k, v)]
  | (k₀, v₀) :: rest =>
      if k₀ = k then (k, v) :: rest else (k₀, v₀) :: dictUpsert k v rest

/-- Mutable state of `QueryBuilder` (client.py lines 290-303).  The
`_profile` and `_reusability` slots store the already-resolved enum
value strings; `_geographic` (a float triple) is omitted as no claim
reads it. -/
structure QueryBuilder where
  _filters : List (String × QueryValue)
  _text_query : Option String
  _facets : List String
  _profile : String
  _rows : Int
  _reusability : Option String
  _media_flag : Option Bool
  _thumbnail_flag : Option Bool
deriving DecidableEq

/-- `QueryBuilder.__init__` (client.py lines 293-303). -/
def QueryBuilder.init : QueryBuilder :=
  { _filters := []
  , _text_query := none
  , _facets := []
  , _profile := "rich"
  , _rows := DEFAULT_ROWS
  , _reusability := none
  , _media_flag := none
  , _thumbnail_flag := none }

/-- `QueryBuilder.field` (client.py lines 392-395): generic filter
assignment into the ordered filter map. -/
def QueryBuilder.field (qb : QueryBuilder) (field_name : String)
    (value : QueryValue) : QueryBuilder :=
  { qb with _filters := dictUpsert field_name value qb._filters }

/-- `QueryBuilder.text_query` (client.py lines 833-836). -/
def QueryBuilder.text_query (qb : QueryBuilder) (query : String) :
    QueryBuilder :=
  { qb with _text_query := some query }

/-- Error raised by `QueryBuilder.facets` for a non-facetable field:
the `ValueError` message names the rejected field and the valid set
(client.py lines 851-853); we model the message's content. -/
structure FacetError where
  rejected : String
  valid : List String
deriving DecidableEq

/-- Loop body of `QueryBuilder.facets` (client.py lines 843-855): each
requested field is checked against `FACETABLE_FIELDS`; the first
non-member raises, members are appended in order. -/
def facetsAux (acc : List String) :
    List String → Except FacetError (List String)
  | [] => .ok acc
  | f :: rest =>
      if f ∈ FACETABLE_FIELDS then facetsAux (acc ++ [f]) rest
      else .error ⟨f, FACETABLE_FIELDS⟩

/-- `QueryBuilder.facets` (client.py lines 843-855).  A purely
builder-side operation: no fetch is involved. -/
def QueryBuilder.facets (qb : QueryBuilder) (field_names : List String) :
    Except FacetError QueryBuilder :=
  (facetsAux qb._facets field_names).map
    (fun fs => { qb with _facets := fs })

/-- `QueryBuilder.rows` (client.py lines 862-865):
`self._rows = min(count, MAX_ROWS)`. -/
def QueryBuilder.rows (qb : QueryBuilder) (count : Int) : QueryBuilder :=
  { qb with _rows := min count MAX_ROWS }

/-- `QueryBuilder.get_query_string` (client.py lines 882-884). -/
def QueryBuilder.get_query_string (qb : QueryBuilder) : String :=
  build_query_string qb._text_query qb._filters

/-- One fetched page, the relevant slice of the `SearchResults`
dataclass (client.py lines 271-287): items, total count, continuation
cursor, optional facet summary, echoed query. -/
structure SearchResults (α : Type) where
  items : List α
  total_results : Int
  next_cursor : Option String
  facets : Option (List String) := none
  query : Option String := none
deriving DecidableEq

/-- Query parameters assembled by `EuropeanaClient.search_raw`
(client.py lines 964-991) before the HTTP GET.  The geographic `qf`
parameter (rendered from the omitted float triple) is not modelled. -/
structure RequestParams where
  query : String
  rows : Int
  cursor : String
  facet : Option String
  profile : String
  reusability : Option String
  media : Option Bool
  thumbnail : Option Bool
deriving DecidableEq

/-- Parameter assembly of `EuropeanaClient.search_raw` (client.py lines
946-991): `query_str or "*:*"`, `min(rows, MAX_ROWS)` as the row count,
the cursor, a comma-joined facet parameter when `_facets` is non-empty,
and the profile/reusability/media/thumbnail slots. -/
def paramsOf (qb : QueryBuilder) (cursor : String) : RequestParams :=
  let query_str := qb.get_query_string
  { query := if query_str = "" then "*:*" else query_str
  , rows := min qb._rows MAX_ROWS
  , cursor := cursor
  , facet :=
      if qb._facets.isEmpty then none
      else some (String.intercalate "," qb._facets)
  , profile := qb._profile
  , reusability := qb._reusability
  , media := qb._media_flag
  , thumbnail := qb._thumbnail_flag }

/-- A transport: one bounded fetch.  `.error` models
`response.raise_for_status()` raising on a non-success response
(client.py lines 996-997). -/
def Transport (α ε : Type) : Type :=
  RequestParams → Except ε (SearchResults α)

/-- `EuropeanaClient.search_raw` with the HTTP layer injected: build
the parameters from the builder snapshot and perform one fetch. -/
def search_raw (transport : Transport α ε) (qb : QueryBuilder)
    (cursor : String) : Except ε (SearchResults α) :=
  transport (paramsOf qb cursor)

/-- Python falsiness of the continuation cursor
(`not results.next_cursor`, client.py line 1075): absent or empty. -/
def cursorFalsy : Option String → Bool
  | none => true
  | some s => s == ""

/-- The mid-page budget test of `search_all_raw` (client.py line 1071):
`if max_records and records_fetched >= max_records`.  Note the Python
truthiness test: a budget of 0 never triggers it. -/
def budgetHit (budget : Option Int) (fetched : Int) : Bool :=
  match budget with
  | none => false
  | some b => !(b == 0) && decide (b ≤ fetched)

/-- The per-page row computation of `search_all_raw` (client.py lines
1051-1058): with a truthy budget, break (`none`) when nothing remains,
else `min(DEFAULT_ROWS, remaining)`; with no budget (or the falsy
budget 0) always `DEFAULT_ROWS`. -/
def stepRows (budget : Option Int) (fetched : Int) : Option Int :=
  match budget with
  | some b =>
      if b = 0 then some DEFAULT_ROWS
      else
        let remaining := b - fetched
        if remaining ≤ 0 then none
        else some (min DEFAULT_ROWS remaining)
  | none => some DEFAULT_ROWS

/-- `page_query = copy.deepcopy(query); page_query._rows = rows`
(client.py lines 1060-1062): the per-page snapshot of the builder with
the computed row count substituted. -/
def setPageRows (qb : QueryBuilder) (rows : Int) : QueryBuilder :=
  { qb with _rows := rows }

/-- Why a run of the pagination loop ended. -/
inductive Outcome (ε : Type) where
  | exhausted
  | budgetReached
  | failed (e : ε)
deriving DecidableEq

/-- Observable result of a terminated run: every yielded item in order,
every issued request in order, and the terminal outcome. -/
structure RunResult (α ε : Type) where
  items : List α
  requests : List RequestParams
  outcome : Outcome ε
deriving DecidableEq

/-- The item-yielding inner `for` loop of `search_all_raw` (client.py
lines 1068-1072): emit items one at a time, incrementing the counter,
returning early (`true` flag) the moment `budgetHit` fires.  Returns
the yielded items, the updated counter, and the early-return flag. -/
def drainPage (budget : Option Int) : Int → List α → List α × Int × Bool
  | _fetched, [] => ([], _fetched, false)
  | fetched, x :: rest =>
      if budgetHit budget (fetched + 1) then ([x], fetched + 1, true)
      else
        let d := drainPage budget (fetched + 1) rest
        (x :: d.1, d.2.1, d.2.2)

/-- The `while True` loop of `EuropeanaClient.search_all_raw`
(client.py lines 1047-1078), fuel-indexed; `none` means the loop has
not terminated within `fuel` iterations.  `builderAt n` is the state of
the caller's (mutable, aliased) builder at the moment page `n`'s fetch
is prepared — `n` being the number of requests already issued — and
the per-page `copy.deepcopy` makes each issued request a pure snapshot
of that state (`setPageRows`). -/
def runAux (transport : Transport α ε) (builderAt : Nat → QueryBuilder)
    (budget : Option Int) :
    Nat → String → Int → List α → List RequestParams →
    Option (RunResult α ε)
  | 0, _, _, _, _ => none
  | Nat.succ fuel, cursor, fetched, acc, reqs =>
      match stepRows budget fetched with
      | none => some ⟨acc, reqs, .budgetReached⟩
      | some rows =>
          let req := paramsOf (setPageRows (builderAt reqs.length) rows) cursor
          match transport req with
          | .error e => some ⟨acc, reqs ++ [req], .failed e⟩
          | .ok results =>
              let d := drainPage budget fetched results.items
              if d.2.2 then
                some ⟨acc ++ d.1, reqs ++ [req], .budgetReached⟩
              else if cursorFalsy results.next_cursor
                  || results.items.length == 0 then
                some ⟨acc ++ d.1, reqs ++ [req], .exhausted⟩
              else
                runAux transport builderAt budget fuel
                  (results.next_cursor.getD "") d.2.1 (acc ++ d.1)
                  (reqs ++ [req])

/-- `EuropeanaClient.search_all_raw` (client.py lines 1032-1078): start
at the `"*"` cursor with zero records fetched. -/
def search_all_raw (transport : Transport α ε)
    (builderAt : Nat → QueryBuilder) (budget : Option Int) (fuel : Nat) :
    Option (RunResult α ε) :=
  runAux transport builderAt budget fuel "*" 0 [] []

/-- Termination of a pagination run: some fuel suffices. -/
def sarTerminates (transport : Transport α ε)
    (builderAt : Nat → QueryBuilder) (budget : Option Int) : Prop :=
  ∃ fuel res, search_all_raw transport builderAt budget fuel = some res

/-- The effective `query` parameter derived from a builder state:
its compiled query string, or the match-all wildcard when empty
(client.py line 966). -/
def effQuery (qb : QueryBuilder) : String :=
  if qb.get_query_string = "" then "*:*" else qb.get_query_string

-- Concrete stubs used by the closed theorems and witnesses below.

/-- A fresh builder, as produced by `EuropeanaClient.query()`. -/
def qb0 : QueryBuilder := QueryBuilder.init

/-- Fetcher stub for claim C1: three pages of 100 items each, then a
page with no items and no continuation cursor. -/
def stubFetch : Transport Nat String := fun req =>
  if req.cursor = "*" then
    .ok ⟨List.replicate 100 0, 300, some "c1", none, none⟩
  else if req.cursor = "c1" then
    .ok ⟨List.replicate 100 1, 300, some "c2", none, none⟩
  else if req.cursor = "c2" then
    .ok ⟨List.replicate 100 2, 300, some "c3", none, none⟩
  else if req.cursor = "c3" then
    .ok ⟨[], 300, none, none, none⟩
  else .error "unexpected fetch"

/-- Fetcher stub whose first page is already empty (claim C8). -/
def emptyStub : Transport Nat String := fun _ =>
  .ok ⟨[], 0, none, none, none⟩

/-- Fetcher stub whose every fetch fails at the transport boundary
(claim C9). -/
def errStub : Transport Nat String := fun _ => .error "boom"

/-- Fetcher stub that always returns the same non-empty page carrying
exactly the cursor it was just given (claim C10): a remote that
repeats a page forever. -/
def dupStub : Transport Nat String := fun req =>
  .ok ⟨[0], 1, some req.cursor, none, none⟩

/-- One-step unfolding of the pagination loop. -/
theorem runAux_succ (transport : Transport α ε)
    (builderAt : Nat → QueryBuilder) (budget : Option Int) (fuel : Nat)
    (cursor : String) (fetched : Int) (acc : List α)
    (reqs : List RequestParams) :
    runAux transport builderAt budget (Nat.succ fuel) cursor fetched acc
        reqs =
      match stepRows budget fetched with
      | none => some ⟨acc, reqs, Outcome.budgetReached⟩
      | some rows =>
          match transport
              (paramsOf (setPageRows (builderAt reqs.length) rows) cursor) with
          | .error e =>
              some ⟨acc,
                reqs ++ [paramsOf (setPageRows (builderAt reqs.length) rows)
                  cursor],
                Outcome.failed e⟩
          | .ok results =>
              if (drainPage budget fetched results.items).2.2 then
                some ⟨acc ++ (drainPage budget fetched results.items).1,
                  reqs ++ [paramsOf (setPageRows (builderAt reqs.length) rows)
                    cursor],
                  Outcome.budgetReached⟩
              else if cursorFalsy results.next_cursor
                  || results.items.length == 0 then
                some ⟨acc ++ (drainPage budget fetched results.items).1,
                  reqs ++ [paramsOf (setPageRows (builderAt reqs.length) rows)
                    cursor],
                  Outcome.exhausted⟩
              else
                runAux transport builderAt budget fuel
                  (results.next_cursor.getD "")
                  (drainPage budget fetched results.items).2.1
                  (acc ++ (drainPage budget fetched results.items).1)
                  (reqs ++ [paramsOf (setPageRows (builderAt reqs.length) rows)
                    cursor]) := rfl

/-- Claim C2: the compiler emits the free text first (when truthy),
then one `field:value` term per filter in insertion order with enum
values resolved to their underlying string, all joined by the literal
token `" AND "`; both inputs empty give the empty string; non-empty
text with no filters is returned unchanged; a single single-word filter
compiles to exactly `f:v`. -/
theorem build_query_string_reference :
    (∀ (t : String) fs, t ≠ "" →
      build_query_string (some t) fs =
        String.intercalate " AND "
          (t :: fs.map (fun p => filterTerm p.1 p.2))) ∧
    (∀ fs, build_query_string none fs =
      String.intercalate " AND " (fs.map (fun p => filterTerm p.1 p.2))) ∧
    build_query_string none [] = "" ∧
    (∀ t : String, t ≠ "" → build_query_string (some t) [] = t) ∧
    build_query_string none [("f", QueryValue.str "v")] = "f:v" ∧
    (∀ f u, filterTerm f (QueryValue.enum u) = filterTerm f (QueryValue.str u)) := by
  refine ⟨?_, ?_, rfl, ?_, by decide, fun f u => rfl⟩
  · intro t fs ht
    simp [build_query_string, ht]
  · intro fs
    cases fs with
    | nil => rfl
    | cons p rest => simp [build_query_string]
  · intro t ht
    simp [build_query_string, ht]
    rfl

/-- Witness for C2: concrete instances discharging the non-empty-text
hypotheses. -/
theorem build_query_string_reference_witness :
    ("hello" ≠ ("" : String)) ∧
    build_query_string (some "hello") [] = "hello" ∧
    build_query_string (some "hello") [("f", QueryValue.str "v")] =
      String.intercalate " AND "
        ("hello" :: [(("f" : String), QueryValue.str "v")].map
          (fun p => filterTerm p.1 p.2)) :=
  ⟨by decide, build_query_string_reference.2.2.2.1 "hello" (by decide),
    build_query_string_reference.1 "hello" [("f", QueryValue.str "v")]
      (by decide)⟩

/-- Claim C3: a filter value whose string form contains a space and is
not already wrapped in double quotes is wrapped before emission; a
value already wrapped (starting and ending with a double-quote
character) is emitted as-is, never double-wrapped.  Concretely,
`{"f": "a b"}` compiles to `f:"a b"`, and re-compiling the
already-quoted value gives the same output. -/
theorem filter_value_quoting :
    (∀ (f v : String), strContainsSpace v = true →
      isWrappedInQuotes v = false →
      build_query_string none [(f, QueryValue.str v)] =
        f ++ ":" ++ ("\"" ++ v ++ "\"")) ∧
    (∀ (f v : String), isWrappedInQuotes v = true →
      build_query_string none [(f, QueryValue.str v)] = f ++ ":" ++ v) ∧
    build_query_string none [("f", QueryValue.str "a b")] = "f:\"a b\"" ∧
    build_query_string none [("f", QueryValue.str "\"a b\"")] = "f:\"a b\"" := by
  refine ⟨?_, ?_, by decide, by decide⟩
  · intro f v hsp hwr
    simp [build_query_string, filterTerm, strOfValue, hsp, hwr]
    rfl
  · intro f v hwr
    simp [build_query_string, filterTerm, strOfValue, hwr]
    rfl

/-- Witness for C3: the space-containing value `a b` is wrapped, and
the already-wrapped value is left alone. -/
theorem filter_value_quoting_witness :
    strContainsSpace "a b" = true ∧ isWrappedInQuotes "a b" = false ∧
    build_query_string none [("g", QueryValue.str "a b")] =
      "g" ++ ":" ++ ("\"" ++ "a b" ++ "\"") ∧
    isWrappedInQuotes "\"a b\"" = true ∧
    build_query_string none [("g", QueryValue.str "\"a b\"")] =
      "g" ++ ":" ++ "\"a b\"" :=
  ⟨by decide, by decide,
    filter_value_quoting.1 "g" "a b" (by decide) (by decide),
    by decide,
    filter_value_quoting.2.1 "g" "\"a b\"" (by decide)⟩

/-- Claim C5: a field outside the fixed 13-entry facetable allow-list
makes `QueryBuilder.facets` fail at once — a builder-side operation
involving no fetch — with an error naming the rejected field and the
valid set; an allow-listed field succeeds and is appended verbatim to
the builder's facet list, which is exactly what the compiled request's
`facet` parameter is built from. -/
theorem facet_registration_validation :
    ∀ (qb : QueryBuilder) (f : String),
      (f ∉ FACETABLE_FIELDS →
        QueryBuilder.facets qb [f] =
          Except.error ⟨f, FACETABLE_FIELDS⟩) ∧
      (f ∈ FACETABLE_FIELDS →
        QueryBuilder.facets qb [f] =
          Except.ok { qb with _facets := qb._facets ++ [f] }) ∧
      (∀ c, (paramsOf { qb with _facets := qb._facets ++ [f] } c).facet =
        some (String.intercalate "," (qb._facets ++ [f]))) ∧
      FACETABLE_FIELDS.length = 13 := by
  intro qb f
  refine ⟨?_, ?_, ?_, rfl⟩
  · intro h
    simp [QueryBuilder.facets, facetsAux, h, Except.map]
  · intro h
    simp [QueryBuilder.facets, facetsAux, h, Except.map]
  · intro c
    simp [paramsOf]

/-- Witness for C5: `title` (an aggregate field, not facetable) is
rejected with the descriptive error; `TYPE` (allow-listed) is appended
verbatim. -/
theorem facet_registration_validation_witness :
    ("title" ∉ FACETABLE_FIELDS) ∧
    QueryBuilder.facets QueryBuilder.init ["title"] =
      Except.error ⟨"title", FACETABLE_FIELDS⟩ ∧
    ("TYPE" ∈ FACETABLE_FIELDS) ∧
    QueryBuilder.facets QueryBuilder.init ["TYPE"] =
      Except.ok
        { QueryBuilder.init with
            _facets := QueryBuilder.init._facets ++ ["TYPE"] } :=
  ⟨by decide,
    (facet_registration_validation QueryBuilder.init "title").1 (by decide),
    by decide,
    (facet_registration_validation QueryBuilder.init "TYPE").2.1 (by decide)⟩

/-- The row count placed into any request by `search_raw` is clamped a
second time at the transport boundary: `min(rows, MAX_ROWS)`. -/
theorem paramsOf_rows_le (qb : QueryBuilder) (c : String) :
    (paramsOf qb c).rows ≤ MAX_ROWS :=
  min_le_right _ _

/-- Invariant of the pagination loop: every request it has issued or
will issue carries a row count of at most `MAX_ROWS`. -/
theorem runAux_rows_le (transport : Transport α ε)
    (builderAt : Nat → QueryBuilder) (budget : Option Int) :
    ∀ (fuel : Nat) (cursor : String) (fetched : Int) (acc : List α)
      (reqs : List RequestParams) (res : RunResult α ε),
      (∀ req ∈ reqs, req.rows ≤ MAX_ROWS) →
      runAux transport builderAt budget fuel cursor fetched acc reqs =
        some res →
      ∀ req ∈ res.requests, req.rows ≤ MAX_ROWS := by
  intro fuel
  induction fuel with
  | zero =>
      intro cursor fetched acc reqs res hinv hrun
      simp [runAux] at hrun
  | succ n ih =>
      intro cursor fetched acc reqs res hinv hrun
      rw [runAux_succ] at hrun
      split at hrun
      · obtain rfl := Option.some.inj hrun
        exact hinv
      · rename_i rows hstep
        have hinv2 : ∀ r ∈ reqs ++
            [paramsOf (setPageRows (builderAt reqs.length) rows) cursor],
            r.rows ≤ MAX_ROWS := by
          intro r hr
          rcases List.mem_append.mp hr with h | h
          · exact hinv r h
          · rw [List.mem_singleton.mp h]
            exact paramsOf_rows_le _ _
        split at hrun
        · obtain rfl := Option.some.inj hrun
          exact hinv2
        · split at hrun
          · obtain rfl := Option.some.inj hrun
            exact hinv2
          · split at hrun
            · obtain rfl := Option.some.inj hrun
              exact hinv2
            · exact ih _ _ _ _ _ hinv2 hrun

/-- Claim C6: `rows(count)` stores `min(count, MAX_ROWS)` and never
errors; `rows(150)` stores exactly 100 and `rows(10)` exactly 10; and
the row count carried by every request the pagination engine issues
never exceeds the maximum page size. -/
theorem row_count_clamping {α ε : Type} :
    (∀ (qb : QueryBuilder) (count : Int),
      (QueryBuilder.rows qb count)._rows = min count MAX_ROWS) ∧
    (∀ qb : QueryBuilder, (QueryBuilder.rows qb 150)._rows = 100) ∧
    (∀ qb : QueryBuilder, (QueryBuilder.rows qb 10)._rows = 10) ∧
    (∀ (transport : Transport α ε) (builderAt : Nat → QueryBuilder)
      (budget : Option Int) (fuel : Nat) (res : RunResult α ε),
      search_all_raw transport builderAt budget fuel = some res →
      ∀ req ∈ res.requests, req.rows ≤ MAX_ROWS) := by
  refine ⟨fun qb count => rfl, ?_, ?_, ?_⟩
  · intro qb
    show min (150 : Int) MAX_ROWS = 100
    decide
  · intro qb
    show min (10 : Int) MAX_ROWS = 10
    decide
  intro transport builderAt budget fuel res hrun req hmem
  exact runAux_rows_le transport builderAt budget fuel "*" 0 [] [] res
    (by simp) hrun req hmem

/-- The observable result of running the C1 stub without a budget,
used by concrete witnesses. -/
def resRunAll : RunResult Nat String :=
  (search_all_raw stubFetch (fun _ => qb0) none 10).getD
    ⟨[], [], Outcome.exhausted⟩

set_option maxRecDepth 40000 in
/-- Witness for C6: the first request issued by the concrete C1 run
carries a row count within the maximum page size. -/
theorem row_count_clamping_witness :
    search_all_raw stubFetch (fun _ => qb0) none 10 = some resRunAll ∧
    (paramsOf (setPageRows qb0 100) "*") ∈ resRunAll.requests ∧
    (paramsOf (setPageRows qb0 100) "*").rows ≤ MAX_ROWS :=
  ⟨by decide, by decide,
    (@row_count_clamping Nat String).2.2.2 stubFetch (fun _ => qb0) none 10
      resRunAll (by decide) (paramsOf (setPageRows qb0 100) "*") (by decide)⟩

set_option maxRecDepth 40000 in
/-- Claim C1: on a fetcher returning three pages of 100 items each and
then an empty page with no continuation cursor, iterating without a
budget yields exactly 300 items over 4 fetches and stops (exhausted);
with `max_records = 250` it yields exactly 250 items, stops mid-third-
page the moment the budget is reached, and issues no 4th fetch. -/
theorem pagination_termination_budget :
    (search_all_raw stubFetch (fun _ => qb0) none 10).map
        (fun r => (r.items.length, r.requests.length, r.outcome)) =
      some (300, 4, Outcome.exhausted) ∧
    (search_all_raw stubFetch (fun _ => qb0) (some 250) 10).map
        (fun r => (r.items.length, r.requests.length, r.outcome)) =
      some (250, 3, Outcome.budgetReached) ∧
    (search_all_raw stubFetch (fun _ => qb0) (some 250) 10).map
        (fun r => r.items) =
      some (List.replicate 100 0 ++ List.replicate 100 1 ++
        List.replicate 50 2) :=
  ⟨by decide, by decide, by decide⟩

/-- Claim C8: after draining any page, if the page carried no (truthy)
continuation cursor or had zero items, the loop returns exhausted
immediately after that single fetch and issues no further fetch; in
particular an immediately-empty first page yields zero items and
issues exactly one fetch. -/
theorem empty_page_termination {α ε : Type} :
    (∀ (transport : Transport α ε) (builderAt : Nat → QueryBuilder)
      (budget : Option Int) (fuel : Nat) (cursor : String) (fetched : Int)
      (acc : List α) (reqs : List RequestParams) (rows : Int)
      (results : SearchResults α),
      stepRows budget fetched = some rows →
      transport (paramsOf (setPageRows (builderAt reqs.length) rows) cursor) =
        Except.ok results →
      (drainPage budget fetched results.items).2.2 = false →
      (cursorFalsy results.next_cursor || results.items.length == 0) = true →
      runAux transport builderAt budget (Nat.succ fuel) cursor fetched acc
          reqs =
        some ⟨acc ++ (drainPage budget fetched results.items).1,
          reqs ++ [paramsOf (setPageRows (builderAt reqs.length) rows) cursor],
          Outcome.exhausted⟩) ∧
    (search_all_raw emptyStub (fun _ => qb0) none 10).map
        (fun r => (r.items.length, r.requests.length, r.outcome)) =
      some (0, 1, Outcome.exhausted) := by
  refine ⟨?_, by decide⟩
  intro transport builderAt budget fuel cursor fetched acc reqs rows results
    hstep htr hd hc
  simp only [runAux_succ, hstep, htr, hd, hc, Bool.false_eq_true,
    if_false, if_true]

/-- Witness for C8: the empty-first-page stub run, with every
hypothesis discharged at the start state. -/
theorem empty_page_termination_witness :
    stepRows none 0 = some 100 ∧
    emptyStub (paramsOf (setPageRows qb0 100) "*") =
      Except.ok ⟨[], 0, none, none, none⟩ ∧
    runAux emptyStub (fun _ => qb0) none (Nat.succ 9) "*" 0 [] [] =
      some ⟨[] ++ (drainPage none 0
          (SearchResults.items (α := Nat) ⟨[], 0, none, none, none⟩)).1,
        [] ++ [paramsOf (setPageRows qb0 100) "*"],
        Outcome.exhausted⟩ :=
  ⟨rfl, rfl,
    (@empty_page_termination Nat String).1 emptyStub (fun _ => qb0) none 9 "*"
      0 [] [] 100 ⟨[], 0, none, none, none⟩ rfl rfl rfl rfl⟩

/-- Claim C9: a transport failure (a non-success response raised by
`raise_for_status`) propagates to the caller as a distinct terminating
`failed` outcome of the current step; it is never converted into an
empty page or an apparently-exhausted stream — `failed` and
`exhausted` are different constructors. -/
theorem transport_error_propagation {α ε : Type} :
    (∀ (transport : Transport α ε) (builderAt : Nat → QueryBuilder)
      (budget : Option Int) (fuel : Nat) (cursor : String) (fetched : Int)
      (acc : List α) (reqs : List RequestParams) (rows : Int) (e : ε),
      stepRows budget fetched = some rows →
      transport (paramsOf (setPageRows (builderAt reqs.length) rows) cursor) =
        Except.error e →
      runAux transport builderAt budget (Nat.succ fuel) cursor fetched acc
          reqs =
        some ⟨acc,
          reqs ++ [paramsOf (setPageRows (builderAt reqs.length) rows) cursor],
          Outcome.failed e⟩) ∧
    (∀ e : ε, (Outcome.failed e) ≠ (Outcome.exhausted : Outcome ε)) ∧
    (search_all_raw errStub (fun _ => qb0) none 10) =
      some ⟨[], [paramsOf (setPageRows qb0 100) "*"], Outcome.failed "boom"⟩ := by
  refine ⟨?_, fun e h => Outcome.noConfusion h, by decide⟩
  intro transport builderAt budget fuel cursor fetched acc reqs rows e
    hstep htr
  simp only [runAux_succ, hstep, htr]

/-- Witness for C9: the always-failing stub, hypotheses discharged at
the start state. -/
theorem transport_error_propagation_witness :
    stepRows none 0 = some 100 ∧
    errStub (paramsOf (setPageRows qb0 100) "*") = Except.error "boom" ∧
    runAux errStub (fun _ => qb0) none (Nat.succ 9) "*" 0 [] [] =
      some ⟨[], [] ++ [paramsOf (setPageRows qb0 100) "*"],
        Outcome.failed "boom"⟩ :=
  ⟨rfl, rfl,
    (@transport_error_propagation Nat String).1 errStub (fun _ => qb0) none 9
      "*" 0 [] [] 100 "boom" rfl rfl⟩

/-- The query string carried by a per-page snapshot request is exactly
the effective query of the builder state that was snapshotted: the
row-count override does not touch the text or the filters. -/
theorem paramsOf_setPageRows_query (qb : QueryBuilder) (rows : Int)
    (c : String) :
    (paramsOf (setPageRows qb rows) c).query = effQuery qb := rfl

/-- Extending a request trace by one snapshot request preserves the
per-index query property. -/
theorem snoc_query_inv {reqs : List RequestParams} {req : RequestParams}
    {builderAt : Nat → QueryBuilder}
    (h : ∀ (k : Nat) (r : RequestParams), reqs[k]? = some r →
      r.query = effQuery (builderAt k))
    (hnew : req.query = effQuery (builderAt reqs.length)) :
    ∀ (k : Nat) (r : RequestParams), (reqs ++ [req])[k]? = some r →
      r.query = effQuery (builderAt k) := by
  intro k r hk
  rcases Nat.lt_or_ge k reqs.length with hlt | hge
  · rw [List.getElem?_append_left hlt] at hk
    exact h k r hk
  · rw [List.getElem?_append_right hge] at hk
    cases hm : k - reqs.length with
    | zero =>
        have hk2 : k = reqs.length :=
          Nat.le_antisymm (Nat.sub_eq_zero_iff_le.mp hm) hge
        rw [hm] at hk
        simp only [List.getElem?_cons_zero, Option.some.injEq] at hk
        rw [← hk, hk2]
        exact hnew
    | succ m =>
        rw [hm] at hk
        simp at hk

/-- Invariant of the pagination loop: the request issued for page `n`
carries the query string compiled from `builderAt n`, the builder
state at the moment that page's fetch was prepared. -/
theorem runAux_query_inv (transport : Transport α ε)
    (builderAt : Nat → QueryBuilder) (budget : Option Int) :
    ∀ (fuel : Nat) (cursor : String) (fetched : Int) (acc : List α)
      (reqs : List RequestParams) (res : RunResult α ε),
      (∀ (k : Nat) (r : RequestParams), reqs[k]? = some r →
        r.query = effQuery (builderAt k)) →
      runAux transport builderAt budget fuel cursor fetched acc reqs =
        some res →
      ∀ (n : Nat) (r : RequestParams), res.requests[n]? = some r →
        r.query = effQuery (builderAt n) := by
  intro fuel
  induction fuel with
  | zero =>
      intro cursor fetched acc reqs res hinv hrun
      simp [runAux] at hrun
  | succ n ih =>
      intro cursor fetched acc reqs res hinv hrun
      rw [runAux_succ] at hrun
      split at hrun
      · obtain rfl := Option.some.inj hrun
        exact hinv
      · rename_i rows hstep
        have hinv2 := snoc_query_inv hinv
          (paramsOf_setPageRows_query (builderAt reqs.length) rows cursor)
        split at hrun
        · obtain rfl := Option.some.inj hrun
          exact hinv2
        · split at hrun
          · obtain rfl := Option.some.inj hrun
            exact hinv2
          · split at hrun
            · obtain rfl := Option.some.inj hrun
              exact hinv2
            · exact ih _ _ _ _ _ hinv2 hrun

/-- Claim C4: each page's fetch uses an immutable snapshot of the
builder taken when that page's request is prepared (the source's
per-page `copy.deepcopy`): in every terminating run, the request
issued for page `n` carries exactly the query string compiled from the
builder state as it stood before page `n`'s fetch began — mutations
made afterwards (states `builderAt m`, `m > n`) never retroactively
alter it, since the request is a pure function of `builderAt n`. -/
theorem per_page_snapshot_isolation {α ε : Type} :
    ∀ (transport : Transport α ε) (builderAt : Nat → QueryBuilder)
      (budget : Option Int) (fuel : Nat) (res : RunResult α ε),
      search_all_raw transport builderAt budget fuel = some res →
      ∀ (n : Nat) (r : RequestParams), res.requests[n]? = some r →
        r.query = effQuery (builderAt n) := by
  intro transport builderAt budget fuel res hrun n r hn
  refine runAux_query_inv transport builderAt budget fuel "*" 0 [] [] res
    ?_ hrun n r hn
  intro k r h
  simp at h

-- Concrete mutation schedule for the C4 witness: the caller changes
-- the filter `f` from `v1` to `v2` after the first page's fetch.

def qbV1 : QueryBuilder :=
  QueryBuilder.field QueryBuilder.init "f" (QueryValue.str "v1")

def qbV2 : QueryBuilder :=
  QueryBuilder.field QueryBuilder.init "f" (QueryValue.str "v2")

/-- Builder state as seen at each page boundary: `v1` when page 0 is
prepared, `v2` from page 1 on. -/
def mutSched : Nat → QueryBuilder := fun n => if n = 0 then qbV1 else qbV2

/-- Two-page stub for the C4 witness. -/
def twoPageStub : Transport Nat String := fun req =>
  if req.cursor = "*" then .ok ⟨[10], 2, some "n1", none, none⟩
  else .ok ⟨[20], 2, none, none, none⟩

/-- Result of the mutating-schedule run. -/
def resMut : RunResult Nat String :=
  (search_all_raw twoPageStub mutSched none 10).getD
    ⟨[], [], Outcome.exhausted⟩

/-- Witness for C4: in the concrete mutating run, page 0's issued
request compiles the pre-mutation state and page 1's the
post-mutation state. -/
theorem per_page_snapshot_isolation_witness :
    search_all_raw twoPageStub mutSched none 10 = some resMut ∧
    resMut.requests[0]? = some (paramsOf (setPageRows qbV1 100) "*") ∧
    resMut.requests[1]? = some (paramsOf (setPageRows qbV2 100) "n1") ∧
    (paramsOf (setPageRows qbV1 100) "*").query = effQuery (mutSched 0) ∧
    (paramsOf (setPageRows qbV2 100) "n1").query = effQuery (mutSched 1) ∧
    effQuery (mutSched 0) = "f:v1" ∧
    effQuery (mutSched 1) = "f:v2" :=
  ⟨by decide, by decide, by decide,
    per_page_snapshot_isolation twoPageStub mutSched none 10 resMut
      (by decide) 0 (paramsOf (setPageRows qbV1 100) "*") (by decide),
    per_page_snapshot_isolation twoPageStub mutSched none 10 resMut
      (by decide) 1 (paramsOf (setPageRows qbV2 100) "n1") (by decide),
    by decide, by decide⟩

set_option maxRecDepth 40000 in
/-- Counterexample to claim C7 as stated: `max_records = 0` is a set
budget, yet on the transition into the first fetch the engine computes
a row count of 100, not `min(default_page_size, remaining_budget)`
(which is `min(100, 0 - 0) = 0`) — the Python truthiness test
`if max_records:` treats the budget 0 exactly like no budget, and the
run then fetches all 4 pages and yields all 300 items. -/
theorem per_page_rows_counterexample :
    stepRows (some 0) 0 = some 100 ∧
    min DEFAULT_ROWS ((0 : Int) - 0) = 0 ∧
    ¬ (100 : Int) = 0 ∧
    (search_all_raw stubFetch (fun _ => qb0) (some 0) 10).map
        (fun r => (r.items.length, r.requests.length, r.outcome)) =
      some (300, 4, Outcome.exhausted) :=
  ⟨rfl, by decide, by decide, by decide⟩

set_option maxRecDepth 40000 in
/-- Claim C7 (amended): on every transition into a fetch the engine
computes that page's row count as `min(default_page_size,
remaining_budget)` whenever a NONZERO budget is set (breaking out
instead when nothing remains); when no budget is set — or the budget
is 0, which the code's truthiness test treats as unset — the row count
is `default_page_size` (100).  Concretely, the budget-250 run issues
its three fetches with row counts 100, 100, 50. -/
theorem per_page_rows_amended :
    (∀ fetched : Int, stepRows none fetched = some DEFAULT_ROWS) ∧
    (∀ fetched : Int, stepRows (some 0) fetched = some DEFAULT_ROWS) ∧
    (∀ (b fetched : Int), b ≠ 0 → 0 < b - fetched →
      stepRows (some b) fetched = some (min DEFAULT_ROWS (b - fetched))) ∧
    (∀ (b fetched : Int), b ≠ 0 → b - fetched ≤ 0 →
      stepRows (some b) fetched = none) ∧
    (search_all_raw stubFetch (fun _ => qb0) (some 250) 10).map
        (fun r => r.requests.map (fun q => q.rows)) =
      some [100, 100, 50] := by
  refine ⟨fun _ => rfl, fun _ => rfl, ?_, ?_, by decide⟩
  · intro b fetched hb hrem
    simp only [stepRows, if_neg hb, if_neg (by omega : ¬ b - fetched ≤ 0)]
  · intro b fetched hb hrem
    simp only [stepRows, if_neg hb, if_pos hrem]

/-- Witness for C7 (amended), at the budget-250 mid-run state: 200
records already yielded, so the third fetch asks for
`min(100, 50) = 50` rows. -/
theorem per_page_rows_amended_witness :
    ((250 : Int) ≠ 0) ∧ (0 < (250 : Int) - 200) ∧
    stepRows (some 250) 200 = some (min DEFAULT_ROWS ((250 : Int) - 200)) ∧
    min DEFAULT_ROWS ((250 : Int) - 200) = 50 :=
  ⟨by decide, by decide,
    per_page_rows_amended.2.2.1 250 200 (by decide) (by decide), by decide⟩

/-- With no budget the inner drain loop never early-returns: the
budget test `if max_records and ...` is never truthy. -/
theorem drainPage_none_not_early {α : Type} :
    ∀ (fetched : Int) (l : List α),
      (drainPage none fetched l).2.2 = false := by
  intro fetched l
  induction l generalizing fetched with
  | nil => rfl
  | cons x rest ih => simp [drainPage, budgetHit, ih]

/-- A transport that answers every request with the same non-empty page
carrying exactly the cursor it was given keeps the loop state's cursor
unchanged forever: the loop never terminates, for any fuel. -/
theorem runAux_selfcursor_loops (transport : Transport α ε)
    (builderAt : Nat → QueryBuilder)
    (hdup : ∀ req : RequestParams, ∃ results : SearchResults α,
      transport req = Except.ok results ∧ results.items ≠ [] ∧
      results.next_cursor = some req.cursor) :
    ∀ (fuel : Nat) (cursor : String) (fetched : Int) (acc : List α)
      (reqs : List RequestParams), cursor ≠ "" →
      runAux transport builderAt none fuel cursor fetched acc reqs =
        none := by
  intro fuel
  induction fuel with
  | zero => intro cursor fetched acc reqs hc; rfl
  | succ n ih =>
      intro cursor fetched acc reqs hc
      obtain ⟨results, htr, hitems, hcur⟩ :=
        hdup (paramsOf (setPageRows (builderAt reqs.length) DEFAULT_ROWS)
          cursor)
      have hcur2 : results.next_cursor = some cursor := hcur
      have hfalsy : cursorFalsy (some cursor) = false :=
        beq_eq_false_iff_ne.mpr hc
      have hlen : (results.items.length == 0) = false := by
        simp [List.length_eq_zero, hitems]
      rw [runAux_succ]
      simp only [stepRows, htr, hcur2, Option.getD_some]
      simp [drainPage_none_not_early, hfalsy, hlen]
      exact ih cursor _ _ _ hc

/-- Counterexample to claim C10 as stated: against the concrete
repeating fetcher `dupStub` — which always returns the same non-empty
page with the same continuation cursor it last received — the
pagination loop never terminates: there is no duplicate-page
detection. -/
theorem duplicate_page_counterexample :
    ¬ sarTerminates dupStub (fun _ => qb0) none := by
  rintro ⟨fuel, res, hres⟩
  rw [search_all_raw,
    runAux_selfcursor_loops dupStub (fun _ => qb0)
      (fun req => ⟨⟨[0], 1, some req.cursor, none, none⟩, rfl, by simp, rfl⟩)
      fuel "*" 0 [] [] (by decide)] at hres
  exact Option.noConfusion hres

/-- Claim C10 (amended): the pagination engine performs NO
duplicate-page detection: for every fetcher that repeatedly returns the
same non-empty page with the same continuation cursor it last
received, iteration without a budget never terminates (no fuel bound
suffices); termination arises only from an empty page, a missing or
empty cursor, a budget, or a transport failure. -/
theorem duplicate_page_no_detection {α ε : Type}
    (transport : Transport α ε) (builderAt : Nat → QueryBuilder)
    (hdup : ∀ req : RequestParams, ∃ results : SearchResults α,
      transport req = Except.ok results ∧ results.items ≠ [] ∧
      results.next_cursor = some req.cursor) :
    ¬ sarTerminates transport builderAt none := by
  rintro ⟨fuel, res, hres⟩
  rw [search_all_raw,
    runAux_selfcursor_loops transport builderAt hdup fuel "*" 0 [] []
      (by decide)] at hres
  exact Option.noConfusion hres

/-- Witness for C10 (amended): the concrete repeating fetcher
satisfies the hypothesis, and the conclusion follows by the amended
theorem. -/
theorem duplicate_page_no_detection_witness :
    ¬ sarTerminates dupStub (fun _ => QueryBuilder.init) none :=
  duplicate_page_no_detection dupStub (fun _ => QueryBuilder.init)
    (fun req => ⟨⟨[0], 1, some req.cursor, none, none⟩, rfl, by simp, rfl⟩)
